import Mathlib

/-!
Verification of the Campaign Analytics and Significance Testing Engine of the
Email-Campaign-Optimization repository.

The JavaScript sources (`mailchimp_integration.js`, `script.js`,
`sheets_tracker.js`) are embedded shallowly: JavaScript numbers are modelled
as exact rationals, with a small `JSNum` type tracking `NaN` and the signed
infinities where the source can divide by zero or read a missing field, and
`Number.prototype.toFixed` is modelled by `formatFixed`.  The chi-square
significance tester lives in the repository's Flask backend, which is not
among the source files (only its README sketch and API documentation are);
it is modelled from the specification, in the `SpecModel` namespace.
-/

namespace EmailCampaign

/-- Hundredth-scaled rounding used by the `toFixed` model: the integer `n`
minimising the distance of `n / 10^digits` to `q`, ties resolved to the larger
`n` as the ECMAScript algorithm prescribes for a non-negative argument. -/
def fixedScaled (digits : ℕ) (q : ℚ) : ℤ := ⌊(10 : ℚ) ^ digits * q + 1 / 2⌋

/-- Left-pad the decimal digits of a natural number to a given width. -/
def padDigits (width : ℕ) (n : ℕ) : String :=
  let s := toString n
  if s.length < width then String.mk (List.replicate (width - s.length) '0') ++ s else s

/-- JavaScript `Number.prototype.toFixed(digits)` on an exact rational: the
sign is split off first (the ECMAScript algorithm formats the magnitude and
prepends a minus sign), the magnitude is rounded to the nearest multiple of
`10 ^ (-digits)` with ties away from zero, and the scaled digits are printed
with a decimal point. -/
def formatFixed (digits : ℕ) (q : ℚ) : String :=
  let core : ℚ → String := fun x =>
    let n := (fixedScaled digits x).toNat
    let base := (10 : ℕ) ^ digits
    if digits = 0 then toString n
    else toString (n / base) ++ "." ++ padDigits digits (n % base)
  if q < 0 then "-" ++ core (-q) else core q

/-- A JavaScript number in the exact-rational model: a finite value, `NaN`, or
a signed infinity — enough to track how division by zero and missing input
fields propagate through the arithmetic the source performs.  The distinction
between `0` and `-0` is not modelled. -/
inductive JSNum where
  | num (q : ℚ)
  | nan
  | posInf
  | negInf
  deriving DecidableEq

namespace JSNum

/-- JavaScript subtraction. -/
def sub : JSNum → JSNum → JSNum
  | nan, _ => nan
  | _, nan => nan
  | num p, num q => num (p - q)
  | num _, posInf => negInf
  | num _, negInf => posInf
  | posInf, num _ => posInf
  | negInf, num _ => negInf
  | posInf, negInf => posInf
  | negInf, posInf => negInf
  | posInf, posInf => nan
  | negInf, negInf => nan

/-- JavaScript multiplication. -/
def mul : JSNum → JSNum → JSNum
  | nan, _ => nan
  | _, nan => nan
  | num p, num q => num (p * q)
  | num p, posInf => if p = 0 then nan else if 0 < p then posInf else negInf
  | num p, negInf => if p = 0 then nan else if 0 < p then negInf else posInf
  | posInf, num q => if q = 0 then nan else if 0 < q then posInf else negInf
  | negInf, num q => if q = 0 then nan else if 0 < q then negInf else posInf
  | posInf, posInf => posInf
  | negInf, negInf => posInf
  | posInf, negInf => negInf
  | negInf, posInf => negInf

/-- JavaScript division: a nonzero finite value divided by zero is a signed
infinity and `0 / 0` is `NaN`. -/
def div : JSNum → JSNum → JSNum
  | nan, _ => nan
  | _, nan => nan
  | num p, num q =>
      if q = 0 then (if p = 0 then nan else if 0 < p then posInf else negInf)
      else num (p / q)
  | num _, posInf => num 0
  | num _, negInf => num 0
  | posInf, num q => if 0 ≤ q then posInf else negInf
  | negInf, num q => if 0 ≤ q then negInf else posInf
  | posInf, _ => nan
  | negInf, _ => nan

/-- JavaScript `toFixed(digits)`: the non-finite values print their names. -/
def toFixed (digits : ℕ) : JSNum → String
  | num q => formatFixed digits q
  | nan => "NaN"
  | posInf => "Infinity"
  | negInf => "-Infinity"

/-- Lift an optional JSON number: a missing (`undefined`) operand behaves as
`NaN` in JavaScript arithmetic. -/
def ofOption : Option ℚ → JSNum
  | some q => num q
  | none => nan

end JSNum

/-! The `stats` object read by `MailchimpUtils.formatCampaignData` in
`mailchimp_integration.js`; every field is optional, `none` standing for a
field the upstream API response lacked (`undefined`). -/

structure MailchimpStats where
  emailsSent : Option ℚ
  delivered : Option ℚ
  opens : Option ℚ
  uniqueOpens : Option ℚ
  openRate : Option ℚ
  clicks : Option ℚ
  uniqueClicks : Option ℚ
  clickRate : Option ℚ
  unsubscribes : Option ℚ
  bounces : Option ℚ
  deriving DecidableEq

/-- The `campaignInfo` object `formatCampaignData` passes through. -/
structure CampaignInfo where
  id : Option String
  title : Option String
  subjectLine : Option String
  status : Option String
  sendTime : Option String
  deriving DecidableEq

/-- The argument of `MailchimpUtils.formatCampaignData`: both sub-objects are
reached through optional chaining in the source, so both may be absent. -/
structure RawCampaignData where
  campaignInfo : Option CampaignInfo
  stats : Option MailchimpStats
  deriving DecidableEq

/-- The object `MailchimpUtils.formatCampaignData` returns: the count fields
are plain numbers defaulted with `|| 0`, while `openRate`, `clickRate` and
`deliveryRate` are `toFixed(2)` strings. -/
structure FormattedCampaign where
  campaignId : Option String
  title : Option String
  subjectLine : Option String
  status : Option String
  sendTime : Option String
  emailsSent : ℚ
  delivered : ℚ
  opens : ℚ
  uniqueOpens : ℚ
  openRate : String
  clicks : ℚ
  uniqueClicks : ℚ
  clickRate : String
  unsubscribes : ℚ
  bounces : ℚ
  deliveryRate : String
  deriving DecidableEq

/-- Embedding of `MailchimpUtils.formatCampaignData` from
`mailchimp_integration.js`.  Rates are multiplied by `100` and formatted with
`toFixed(2)` inside the function; `deliveryRate` is guarded only by the
truthiness of `stats.delivered` (absent or `0` gives the string `"0"`), and
the division it performs uses `stats.emailsSent` without the `|| 0` default,
so a missing divisor behaves as `NaN` and a zero divisor as in JavaScript. -/
def formatCampaignData (rawData : RawCampaignData) : FormattedCampaign :=
  let stat : (MailchimpStats → Option ℚ) → Option ℚ := fun f => rawData.stats.bind f
  { campaignId := rawData.campaignInfo.bind (·.id)
    title := rawData.campaignInfo.bind (·.title)
    subjectLine := rawData.campaignInfo.bind (·.subjectLine)
    status := rawData.campaignInfo.bind (·.status)
    sendTime := rawData.campaignInfo.bind (·.sendTime)
    emailsSent := (stat (·.emailsSent)).getD 0
    delivered := (stat (·.delivered)).getD 0
    opens := (stat (·.opens)).getD 0
    uniqueOpens := (stat (·.uniqueOpens)).getD 0
    openRate := formatFixed 2 ((stat (·.openRate)).getD 0 * 100)
    clicks := (stat (·.clicks)).getD 0
    uniqueClicks := (stat (·.uniqueClicks)).getD 0
    clickRate := formatFixed 2 ((stat (·.clickRate)).getD 0 * 100)
    unsubscribes := (stat (·.unsubscribes)).getD 0
    bounces := (stat (·.bounces)).getD 0
    deliveryRate :=
      match stat (·.delivered) with
      | none => "0"
      | some d =>
          if d = 0 then "0"
          else (((JSNum.num d).div (JSNum.ofOption (stat (·.emailsSent)))).mul
                  (JSNum.num 100)).toFixed 2 }

/-- The fields of the Mailchimp report payload that
`getDetailedCampaignReport` reads on its success path (plain JSON numbers). -/
structure DetailedReportData where
  campaignTitle : String
  emailsSent : ℚ
  hardBounces : ℚ
  softBounces : ℚ
  opensTotal : ℚ
  uniqueOpens : ℚ
  openRate : ℚ
  clicksTotal : ℚ
  uniqueClicks : ℚ
  clickRate : ℚ
  unsubscribed : ℚ
  sendTime : String
  deriving DecidableEq

/-- The `report` object built by `getDetailedCampaignReport`. -/
structure DetailedReport where
  campaignTitle : String
  emailsSent : ℚ
  delivered : ℚ
  deliveryRate : String
  opens : ℚ
  uniqueOpens : ℚ
  openRate : String
  clicks : ℚ
  uniqueClicks : ℚ
  clickRate : String
  unsubscribes : ℚ
  bounces : ℚ
  sendTime : String
  deriving DecidableEq

/-- Embedding of the report construction in
`MailchimpIntegration.getDetailedCampaignReport` from
`mailchimp_integration.js` (the pure part of the success path; the network
call and error handling around it are not modelled).  The `deliveryRate`
division by `data.emails_sent` carries no zero guard, so it is computed in
`JSNum` arithmetic. -/
def getDetailedCampaignReport (data : DetailedReportData) : DetailedReport :=
  { campaignTitle := data.campaignTitle
    emailsSent := data.emailsSent
    delivered := data.emailsSent - data.hardBounces - data.softBounces
    deliveryRate :=
      (((JSNum.num (data.emailsSent - data.hardBounces - data.softBounces)).div
          (JSNum.num data.emailsSent)).mul (JSNum.num 100)).toFixed 2
    opens := data.opensTotal
    uniqueOpens := data.uniqueOpens
    openRate := formatFixed 2 (data.openRate * 100)
    clicks := data.clicksTotal
    uniqueClicks := data.uniqueClicks
    clickRate := formatFixed 2 (data.clickRate * 100)
    unsubscribes := data.unsubscribed
    bounces := data.hardBounces + data.softBounces
    sendTime := data.sendTime }

/-- One entry of the object `MailchimpUtils.calculateImprovement` returns for
a metric: the parsed baseline and optimized values, and the `toFixed(2)`
strings it stores for the relative and absolute change. -/
structure ImprovementEntry where
  baseline : ℚ
  optimized : ℚ
  improvement : String
  absolute : String
  deriving DecidableEq

/-- The metric names `calculateImprovement` iterates over. -/
def improvementMetrics : List String := ["openRate", "clickRate", "deliveryRate"]

/-- Embedding of `MailchimpUtils.calculateImprovement` from
`mailchimp_integration.js`.  The campaign objects are modelled by their field
lookup after `parseFloat` (`none` when the field is missing or does not parse,
mirrored by the `|| 0` default), and the result object by an ordered
association list.  A metric is added only when its parsed baseline is strictly
positive; otherwise it is skipped entirely. -/
def calculateImprovement (baseline optimized : String → Option ℚ) :
    List (String × ImprovementEntry) :=
  improvementMetrics.filterMap fun metric =>
    let baseValue := (baseline metric).getD 0
    let optValue := (optimized metric).getD 0
    if 0 < baseValue then
      some (metric,
        { baseline := baseValue
          optimized := optValue
          improvement := formatFixed 2 ((optValue - baseValue) / baseValue * 100)
          absolute := formatFixed 2 (optValue - baseValue) })
    else none

/-! Embeddings from `script.js`: the averaged key metrics of
`UIRenderer.renderKeyMetrics` and the winner selection of
`UIRenderer.renderABTestResults`. -/

/-- A campaign record as `script.js` stores it: per-campaign rates are kept as
already-derived fractions next to the recipient count. -/
structure CampaignRec where
  openRate : ℚ
  ctr : ℚ
  conversionRate : ℚ
  recipients : ℚ
  deriving DecidableEq

/-- The open-rate aggregate at the head of `UIRenderer.renderKeyMetrics`:
`campaigns.reduce((sum, c) => sum + c.openRate, 0) / totalCampaigns` — the
stored per-record rates are summed and divided by the number of campaigns. -/
def keyMetricsAvgOpenRate (campaigns : List CampaignRec) : ℚ :=
  (campaigns.foldl (fun sum c => sum + c.openRate) 0) / campaigns.length

/-- The click-through aggregate of `UIRenderer.renderKeyMetrics`, computed the
same way from the stored `ctr` fields. -/
def keyMetricsAvgCtr (campaigns : List CampaignRec) : ℚ :=
  (campaigns.foldl (fun sum c => sum + c.ctr) 0) / campaigns.length

/-- The conversion aggregate of `UIRenderer.renderKeyMetrics`. -/
def keyMetricsAvgConversionRate (campaigns : List CampaignRec) : ℚ :=
  (campaigns.foldl (fun sum c => sum + c.conversionRate) 0) / campaigns.length

/-- Written from the specification's words, for comparison with the source's
aggregation: sum the underlying counts component-wise and derive one rate from
the summed totals.  Each record's open count is its stored rate times its
population, so the sum-then-derive open rate is the population-weighted
quotient, not the mean of the per-record rates. -/
def sumThenDeriveOpenRate (campaigns : List CampaignRec) : ℚ :=
  (campaigns.map fun c => c.openRate * c.recipients).sum /
    (campaigns.map fun c => c.recipients).sum

/-- A variant as stored on the mock A/B-test objects of `script.js`. -/
structure ABVariant where
  label : String
  recipients : ℤ
  openRate : ℚ
  ctr : ℚ
  conversionRate : ℚ
  deriving DecidableEq

/-- The winner and loser selection of `UIRenderer.renderABTestResults` in
`script.js`: `winner = A.openRate > B.openRate ? A : B` and
`loser = A.openRate <= B.openRate ? A : B`.  A variant is always named winner
by the strictly-higher stored open rate alone; at a tie variant B is returned
as the winner. -/
def pickWinner (variantA variantB : ABVariant) : ABVariant × ABVariant :=
  (if variantB.openRate < variantA.openRate then variantA else variantB,
   if variantA.openRate ≤ variantB.openRate then variantA else variantB)

/-! Embedding from `sheets_tracker.js`: the metrics block of
`SheetsTracker.processAnalyticsData`. -/

/-- One data row of the metrics range read by `processAnalyticsData` (the
header row of the sheet is already sliced off): column 1 holds the campaign
id, columns 2 and 3 the open- and click-rate cells as `parseFloat` sees them
(`none` when the cell does not parse, mirrored by the `|| 0` default), and
column 6 the leads cell as `parseInt` sees it. -/
structure MetricsRow where
  campaignId : String
  openRateCell : Option ℚ
  clickRateCell : Option ℚ
  leadsCell : Option ℤ
  deriving DecidableEq

/-- The aggregate fields `processAnalyticsData` fills from the metrics rows. -/
structure AnalyticsSummary where
  avgOpenRate : ℤ
  avgClickRate : ℤ
  totalLeads : ℤ
  deriving DecidableEq

/-- JavaScript `Math.round`: the nearest integer, ties toward positive
infinity. -/
def jsRound (q : ℚ) : ℤ := ⌊q + 1 / 2⌋

/-- Embedding of the metrics block of `SheetsTracker.processAnalyticsData`
from `sheets_tracker.js` (lines 327–346): the rate cells of the rows matching
`campaignId` (all rows when none is given) are summed with
`parseFloat(row[i]) || 0`, divided by the matching row count, and passed
through `Math.round`; a zero row count yields `0`. -/
def processAnalyticsMetrics (metrics : List MetricsRow) (campaignId : Option String) :
    AnalyticsSummary :=
  let keep : MetricsRow → Bool := fun row =>
    match campaignId with
    | none => true
    | some cid => row.campaignId = cid
  let kept := metrics.filter keep
  let totalOpenRate := (kept.map fun r => r.openRateCell.getD 0).sum
  let totalClickRate := (kept.map fun r => r.clickRateCell.getD 0).sum
  let totalLeads := (kept.map fun r => r.leadsCell.getD 0).sum
  let count : ℕ :=
    match campaignId with
    | some _ => kept.length
    | none => metrics.length
  { avgOpenRate := if 0 < count then jsRound (totalOpenRate / count) else 0
    avgClickRate := if 0 < count then jsRound (totalClickRate / count) else 0
    totalLeads := totalLeads }

namespace SpecModel

/-! The chi-square significance tester.  The repository exposes it as the
Flask backend's `/abtest` endpoint and sketches it as `run_ab_test` in the
README, but the backend module itself (`app.py`) is not among the source
files, so the tester is modelled from the specification (§3, §4.3).  The
p-value map from the chi-square statistic is kept as an explicit parameter
`sf`: the specification requires only that a standard upper-tail probability
under one degree of freedom is used, and the theorems take the properties of
that map (values in `[0,1]`, value `1` at statistic `0`) as hypotheses. -/

/-- Modelled from the spec: the `CampaignCounts` value object of §3. -/
structure CampaignCounts where
  sent : ℕ
  delivered : ℕ
  opens : ℕ
  uniqueOpens : ℕ
  clicks : ℕ
  uniqueClicks : ℕ
  conversions : ℕ
  unsubscribes : ℕ
  revenue : ℚ
  deriving DecidableEq

/-- Modelled from the spec: a `Variant` of §3 — a label, counts, and the
explicit number of recipients exposed to that variant. -/
structure Variant where
  label : String
  counts : CampaignCounts
  sampleSize : ℤ
  deriving DecidableEq

/-- Modelled from the spec: the metric a significance test compares. -/
inductive TestMetric where
  | mOpen
  | mClick
  | mConversion
  deriving DecidableEq

/-- Modelled from the spec: the count of occurred events for a metric — for
`open` the unique opens, for `click` the unique clicks, for `conversion` the
conversions. -/
def occurredCount (v : Variant) : TestMetric → ℕ
  | TestMetric.mOpen => v.counts.uniqueOpens
  | TestMetric.mClick => v.counts.uniqueClicks
  | TestMetric.mConversion => v.counts.conversions

/-- Modelled from the spec: a variant's rate for the tested metric, occurred
events over the sample size. -/
def variantRate (v : Variant) (m : TestMetric) : ℚ :=
  (occurredCount v m : ℚ) / (v.sampleSize : ℚ)

/-- Modelled from the spec: the validation condition of §4.3 — a zero or
negative sample size, or a contingency cell that would be negative because
more events occurred than the sample holds. -/
def insufficientVariant (v : Variant) (m : TestMetric) : Prop :=
  v.sampleSize ≤ 0 ∨ v.sampleSize < (occurredCount v m : ℤ)

instance (v : Variant) (m : TestMetric) : Decidable (insufficientVariant v m) := by
  unfold insufficientVariant
  infer_instance

/-- Modelled from the spec: the error taxonomy entry raised by failed
significance-test validation. -/
inductive TestError where
  | insufficientData
  deriving DecidableEq

/-- Modelled from the spec: the immutable `TestResult` of §3. -/
structure TestResult where
  pValue : ℚ
  chiSquareStatistic : ℚ
  significant : Bool
  winnerLabel : String
  confidencePercent : ℚ
  recommendedMinimumSampleSize : Option ℤ
  deriving DecidableEq

/-- Modelled from the spec: the expected frequency of one contingency cell,
`rowTotal × columnTotal / grandTotal`. -/
def expectedCell (rowTotal colTotal grandTotal : ℚ) : ℚ :=
  rowTotal * colTotal / grandTotal

/-- Modelled from the spec: the chi-square statistic of the 2×2 table with
rows `(oa, ca)` and `(ob, cb)` — the sum over cells of
`(observed − expected)² / expected`. -/
def chiSquareStat (oa ca ob cb : ℚ) : ℚ :=
  (oa - expectedCell (oa + ca) (oa + ob) (oa + ca + (ob + cb))) ^ 2 /
      expectedCell (oa + ca) (oa + ob) (oa + ca + (ob + cb)) +
    (ca - expectedCell (oa + ca) (ca + cb) (oa + ca + (ob + cb))) ^ 2 /
      expectedCell (oa + ca) (ca + cb) (oa + ca + (ob + cb)) +
    (ob - expectedCell (ob + cb) (oa + ob) (oa + ca + (ob + cb))) ^ 2 /
      expectedCell (ob + cb) (oa + ob) (oa + ca + (ob + cb)) +
    (cb - expectedCell (ob + cb) (ca + cb) (oa + ca + (ob + cb))) ^ 2 /
      expectedCell (ob + cb) (ca + cb) (oa + ca + (ob + cb))

/-- Modelled from the spec: the degenerate-table condition — some expected
frequency is exactly zero, in which case the test reports an inconclusive
result instead of dividing. -/
def degenerateTable (oa ca ob cb : ℚ) : Prop :=
  expectedCell (oa + ca) (oa + ob) (oa + ca + (ob + cb)) = 0 ∨
    expectedCell (oa + ca) (ca + cb) (oa + ca + (ob + cb)) = 0 ∨
    expectedCell (ob + cb) (oa + ob) (oa + ca + (ob + cb)) = 0 ∨
    expectedCell (ob + cb) (ca + cb) (oa + ca + (ob + cb)) = 0

instance (oa ca ob cb : ℚ) : Decidable (degenerateTable oa ca ob cb) := by
  unfold degenerateTable
  infer_instance

/-- Modelled from the spec: the internal small-sample floor (fewer than 100
exposures per variant). -/
def sampleFloor : ℤ := 100

/-- Modelled from the spec: the heuristic minimum sample estimate, returned
only when the test is inconclusive and both samples are below the floor; the
estimate grows as the observed effect size `|ra − rb|` shrinks (the inverse
square of the effect), with a fixed large fallback at a zero effect. -/
def recommendedMinimum (significant : Bool) (va vb : Variant) (ra rb : ℚ) : Option ℤ :=
  if significant = false ∧ va.sampleSize < sampleFloor ∧ vb.sampleSize < sampleFloor then
    some (if ra = rb then 10000 else ⌈((ra - rb) ^ 2)⁻¹⌉)
  else none

/-- Modelled from the spec: confidence clamped to `[0, 100]`. -/
def clampPercent (q : ℚ) : ℚ := min 100 (max 0 q)

/-- Modelled from the spec: the inconclusive result reported for a degenerate
table — `significant = false`, `pValue = 1.0`, no winner. -/
def degOutcome (va vb : Variant) (ra rb : ℚ) : TestResult :=
  { pValue := 1
    chiSquareStatistic := 0
    significant := false
    winnerLabel := "inconclusive"
    confidencePercent := clampPercent ((1 - 1) * 100)
    recommendedMinimumSampleSize := recommendedMinimum false va vb ra rb }

/-- Modelled from the spec: the result computed from a non-degenerate table —
the statistic is mapped through `sf` to a p-value, significance is the fixed
`pValue < 0.05` threshold, and the winner is the variant with the strictly
higher rate when significant, `"inconclusive"` otherwise (also at a tie). -/
def mainOutcome (sf : ℚ → ℚ) (va vb : Variant) (ra rb stat : ℚ) : TestResult :=
  let p := sf stat
  let signif : Bool := decide (p < 1 / 20)
  { pValue := p
    chiSquareStatistic := stat
    significant := signif
    winnerLabel :=
      if signif then
        if rb < ra then va.label
        else if ra < rb then vb.label
        else "inconclusive"
      else "inconclusive"
    confidencePercent := clampPercent ((1 - p) * 100)
    recommendedMinimumSampleSize := recommendedMinimum signif va vb ra rb }

/-- Modelled from the spec: the `TestResult` computed once validation passed.
A degenerate table reports the inconclusive `degOutcome`; otherwise the
chi-square statistic of the 2×2 table feeds `mainOutcome`. -/
def testOutcome (sf : ℚ → ℚ) (va vb : Variant) (m : TestMetric) : TestResult :=
  let oa : ℚ := occurredCount va m
  let ca : ℚ := (va.sampleSize : ℚ) - oa
  let ob : ℚ := occurredCount vb m
  let cb : ℚ := (vb.sampleSize : ℚ) - ob
  if degenerateTable oa ca ob cb then
    degOutcome va vb (variantRate va m) (variantRate vb m)
  else
    mainOutcome sf va vb (variantRate va m) (variantRate vb m) (chiSquareStat oa ca ob cb)

/-- Modelled from the spec: `runSignificanceTest` of §4.3 — validation first,
then the computed outcome. -/
def runSignificanceTest (sf : ℚ → ℚ) (va vb : Variant) (m : TestMetric) :
    Except TestError TestResult :=
  if insufficientVariant va m ∨ insufficientVariant vb m then
    Except.error TestError.insufficientData
  else
    Except.ok (testOutcome sf va vb m)

/-- A concrete survival-function stand-in for the witnesses: monotone from `1`
at a zero statistic down toward `0`, with values in `[0,1]`. -/
def sfEx : ℚ → ℚ := fun x => 1 / (1 + x)

/-- Counts for a witness variant: `k` of `n` recipients opened. -/
def countsOf (n k : ℕ) : CampaignCounts :=
  { sent := n, delivered := n, opens := k, uniqueOpens := k, clicks := k,
    uniqueClicks := k, conversions := 0, unsubscribes := 0, revenue := 0 }

/-- Witness variant A of the identical-rates scenario: 300 of 1000. -/
def vA300 : Variant := { label := "A", counts := countsOf 1000 300, sampleSize := 1000 }

/-- Witness variant B of the identical-rates scenario: 300 of 1000. -/
def vB300 : Variant := { label := "B", counts := countsOf 1000 300, sampleSize := 1000 }

/-- Witness variant A of the small-sample scenario: 12 of 50. -/
def vA12 : Variant := { label := "A", counts := countsOf 50 12, sampleSize := 50 }

/-- Witness variant B of the small-sample scenario: 14 of 50. -/
def vB14 : Variant := { label := "B", counts := countsOf 50 14, sampleSize := 50 }

/-- The result the model computes for the identical-rates scenario. -/
def resTie : TestResult :=
  { pValue := 1, chiSquareStatistic := 0, significant := false,
    winnerLabel := "inconclusive", confidencePercent := 0,
    recommendedMinimumSampleSize := none }

/-- The result the model computes for the small-sample scenario under the
stand-in survival function. -/
def resSmall : TestResult :=
  { pValue := 481 / 581, chiSquareStatistic := 100 / 481, significant := false,
    winnerLabel := "inconclusive", confidencePercent := 10000 / 581,
    recommendedMinimumSampleSize := some 625 }

end SpecModel

/-! The page environment of `script.js` and the dependence of the engine
computations on it.  The source keeps page-level mutable globals
(`allCampaigns`, `allABTests`, `allMonthlyPerformance`) and a `Math.random`
stream next to the computations; the bodies of the engine computations
reference only their explicit arguments and none of that state, which the
following wrappers record by threading the environment explicitly. -/

/-- The page-level state surrounding the computations in the source: the
`Math.random` stream consumed by the mock-data generators and the mutable
global arrays. -/
structure PageEnv where
  randoms : ℕ → ℚ
  allCampaigns : List CampaignRec
  allABTests : List (ABVariant × ABVariant)

/-- `MailchimpUtils.formatCampaignData` run on a page: its body reads only
`rawData`. -/
def formatCampaignDataIn (_env : PageEnv) (rawData : RawCampaignData) : FormattedCampaign :=
  formatCampaignData rawData

/-- The metrics block of `processAnalyticsData` run on a page: its body reads
only the ranges and the requested campaign id. -/
def processAnalyticsMetricsIn (_env : PageEnv) (metrics : List MetricsRow)
    (campaignId : Option String) : AnalyticsSummary :=
  processAnalyticsMetrics metrics campaignId

/-- The `renderKeyMetrics` open-rate aggregate run on a page: its body reads
only the campaign list it is handed. -/
def keyMetricsAvgOpenRateIn (_env : PageEnv) (campaigns : List CampaignRec) : ℚ :=
  keyMetricsAvgOpenRate campaigns

/-- The winner selection of `renderABTestResults` run on a page: its body
reads only the two variants of the test object. -/
def pickWinnerIn (_env : PageEnv) (variantA variantB : ABVariant) : ABVariant × ABVariant :=
  pickWinner variantA variantB

/-- The significance tester run on a page: per §5 of the specification it is a
pure function of its explicit arguments. -/
def runSignificanceTestIn (_env : PageEnv) (sf : ℚ → ℚ) (va vb : SpecModel.Variant)
    (m : SpecModel.TestMetric) : Except SpecModel.TestError SpecModel.TestResult :=
  SpecModel.runSignificanceTest sf va vb m

/-- `MailchimpUtils.calculateImprovement` run on a page: its body reads only
the two campaign objects. -/
def calculateImprovementIn (_env : PageEnv) (baseline optimized : String → Option ℚ) :
    List (String × ImprovementEntry) :=
  calculateImprovement baseline optimized

/-! Concrete inputs used by the counterexamples and witnesses below. -/

/-- A large campaign with a low stored open rate: 10% over 1000 recipients. -/
def cexCampA : CampaignRec :=
  { openRate := 1 / 10, ctr := 0, conversionRate := 0, recipients := 1000 }

/-- A small campaign with a high stored open rate: 50% over 10 recipients. -/
def cexCampB : CampaignRec :=
  { openRate := 1 / 2, ctr := 0, conversionRate := 0, recipients := 10 }

/-- A campaign with a zero stored open rate over 1000 recipients. -/
def cexCampZ : CampaignRec :=
  { openRate := 0, ctr := 0, conversionRate := 0, recipients := 1000 }

/-- A campaign with a 30% stored open rate over 1000 recipients. -/
def cexCampC : CampaignRec :=
  { openRate := 3 / 10, ctr := 0, conversionRate := 0, recipients := 1000 }

/-- A metrics row whose open-rate cell reads 10 (percent). -/
def cexRow1 : MetricsRow :=
  { campaignId := "c1", openRateCell := some 10, clickRateCell := some 0, leadsCell := some 0 }

/-- A metrics row whose open-rate cell reads 50 (percent). -/
def cexRow2 : MetricsRow :=
  { campaignId := "c2", openRateCell := some 50, clickRateCell := some 0, leadsCell := some 0 }

/-- A witness campaign over the common population of 100: 20% open rate. -/
def wCampX : CampaignRec :=
  { openRate := 1 / 5, ctr := 0, conversionRate := 0, recipients := 100 }

/-- A witness campaign over the common population of 100: 40% open rate. -/
def wCampY : CampaignRec :=
  { openRate := 2 / 5, ctr := 0, conversionRate := 0, recipients := 100 }

/-- A baseline campaign object whose every metric parses as `0`. -/
def zeroBaseline : String → Option ℚ := fun _ => some 0

/-- An optimized campaign object whose open rate parses as `0.05`. -/
def smallOptimized : String → Option ℚ := fun m => if m = "openRate" then some (1 / 20) else some 0

/-- A baseline campaign object with open rate `0.25` and other metrics `0`. -/
def wBaseline : String → Option ℚ := fun m => if m = "openRate" then some (1 / 4) else some 0

/-- An optimized campaign object with open rate `0.3` and other metrics `0`. -/
def wOptimized : String → Option ℚ := fun m => if m = "openRate" then some (3 / 10) else some 0

/-- A stats payload with zero deliveries but a reported 50% open rate. -/
def cexZeroDelivered : RawCampaignData :=
  { campaignInfo := none,
    stats := some
      { emailsSent := some 100, delivered := some 0, opens := some 0, uniqueOpens := some 0,
        openRate := some (1 / 2), clicks := none, uniqueClicks := none, clickRate := none,
        unsubscribes := none, bounces := none } }

/-- A detailed-report payload with zero emails sent and zero bounces. -/
def cexZeroSent : DetailedReportData :=
  { campaignTitle := "empty", emailsSent := 0, hardBounces := 0, softBounces := 0,
    opensTotal := 0, uniqueOpens := 0, openRate := 0, clicksTotal := 0, uniqueClicks := 0,
    clickRate := 0, unsubscribed := 0, sendTime := "never" }

/-- A stats payload reporting 5 deliveries out of 0 emails sent. -/
def cexInfStats : RawCampaignData :=
  { campaignInfo := none,
    stats := some
      { emailsSent := some 0, delivered := some 5, opens := none, uniqueOpens := none,
        openRate := none, clicks := none, uniqueClicks := none, clickRate := none,
        unsubscribes := none, bounces := none } }

/-- A stats payload whose open rate is the fraction `0.25`. -/
def cexQuarterRate : RawCampaignData :=
  { campaignInfo := none,
    stats := some
      { emailsSent := some 100, delivered := some 100, opens := some 25, uniqueOpens := some 25,
        openRate := some (1 / 4), clicks := some 0, uniqueClicks := some 0, clickRate := some 0,
        unsubscribes := some 0, bounces := some 0 } }

namespace SpecModel

/-- The chi-square statistic of a 2×2 table does not depend on which variant
is listed first: swapping the rows permutes the four summands. -/
theorem chiSquareStat_swap (oa ca ob cb : ℚ) :
    chiSquareStat ob cb oa ca = chiSquareStat oa ca ob cb := by
  unfold chiSquareStat expectedCell
  ring

/-- The degenerate-table condition is symmetric in the two rows. -/
theorem degenerateTable_swap (oa ca ob cb : ℚ) :
    degenerateTable ob cb oa ca ↔ degenerateTable oa ca ob cb := by
  unfold degenerateTable expectedCell
  rw [add_comm ob oa, add_comm cb ca, add_comm (ob + cb) (oa + ca)]
  tauto

/-- The heuristic minimum-sample estimate is symmetric in the two variants. -/
theorem recommendedMinimum_swap (s : Bool) (va vb : Variant) (ra rb : ℚ) :
    recommendedMinimum s vb va rb ra = recommendedMinimum s va vb ra rb := by
  unfold recommendedMinimum
  rw [show ((rb - ra) ^ 2 : ℚ) = (ra - rb) ^ 2 from by ring]
  refine if_congr (by tauto) ?_ rfl
  exact congrArg some (if_congr eq_comm rfl rfl)

/-- The winner chain picks the same label whichever variant is listed first. -/
theorem winnerChain_swap (ra rb : ℚ) (la lb : String) :
    (if ra < rb then lb else if rb < ra then la else "inconclusive") =
      (if rb < ra then la else if ra < rb then lb else "inconclusive") := by
  rcases lt_trichotomy ra rb with h | h | h
  · rw [if_pos h, if_neg (lt_asymm h), if_pos h]
  · subst h
    simp [lt_irrefl]
  · rw [if_neg (lt_asymm h), if_pos h, if_pos h]

/-- The degenerate outcome is symmetric in the two variants. -/
theorem degOutcome_swap (va vb : Variant) (ra rb : ℚ) :
    degOutcome vb va rb ra = degOutcome va vb ra rb := by
  unfold degOutcome
  rw [recommendedMinimum_swap]

/-- The non-degenerate outcome is symmetric in the two variants given the same
statistic. -/
theorem mainOutcome_swap (sf : ℚ → ℚ) (va vb : Variant) (ra rb stat : ℚ) :
    mainOutcome sf vb va rb ra stat = mainOutcome sf va vb ra rb stat := by
  simp only [mainOutcome]
  rw [recommendedMinimum_swap, winnerChain_swap ra rb va.label vb.label]

/-- The computed outcome is symmetric in the two variants. -/
theorem testOutcome_swap (sf : ℚ → ℚ) (va vb : Variant) (m : TestMetric) :
    testOutcome sf vb va m = testOutcome sf va vb m := by
  simp only [testOutcome]
  rw [chiSquareStat_swap ((occurredCount va m : ℚ)) ((va.sampleSize : ℚ) - (occurredCount va m : ℚ))
      ((occurredCount vb m : ℚ)) ((vb.sampleSize : ℚ) - (occurredCount vb m : ℚ)),
    degOutcome_swap va vb (variantRate va m) (variantRate vb m),
    mainOutcome_swap sf va vb (variantRate va m) (variantRate vb m)]
  simp only [degenerateTable_swap ((occurredCount va m : ℚ))
    ((va.sampleSize : ℚ) - (occurredCount va m : ℚ)) ((occurredCount vb m : ℚ))
    ((vb.sampleSize : ℚ) - (occurredCount vb m : ℚ))]

/-- A significance test returns a result exactly when validation passed, and
then returns the computed outcome. -/
theorem run_ok_iff (sf : ℚ → ℚ) (va vb : Variant) (m : TestMetric) (r : TestResult) :
    runSignificanceTest sf va vb m = Except.ok r ↔
      ¬(insufficientVariant va m ∨ insufficientVariant vb m) ∧ r = testOutcome sf va vb m := by
  unfold runSignificanceTest
  split_ifs with h
  · simp [h]
  · simp [h, eq_comm]

/-- Bounds extracted from passed validation: a positive sample and at most as
many occurred events as the sample holds. -/
theorem valid_bounds (v : Variant) (m : TestMetric) (h : ¬ insufficientVariant v m) :
    0 < (v.sampleSize : ℚ) ∧ (occurredCount v m : ℚ) ≤ (v.sampleSize : ℚ) := by
  unfold insufficientVariant at h
  push_neg at h
  obtain ⟨h1, h2⟩ := h
  exact ⟨by exact_mod_cast h1, by exact_mod_cast h2⟩

/-- With nonnegative cells every summand of the chi-square statistic is a
square over a nonnegative expected frequency, so the statistic is
nonnegative. -/
theorem chiSquareStat_nonneg (oa ca ob cb : ℚ) (h1 : 0 ≤ oa) (h2 : 0 ≤ ca)
    (h3 : 0 ≤ ob) (h4 : 0 ≤ cb) : 0 ≤ chiSquareStat oa ca ob cb := by
  unfold chiSquareStat expectedCell
  refine add_nonneg (add_nonneg (add_nonneg ?_ ?_) ?_) ?_ <;>
    exact div_nonneg (sq_nonneg _)
      (div_nonneg (mul_nonneg (by linarith) (by linarith)) (by linarith))

/-- Two rows with exactly equal rates match their expected frequencies cell by
cell, so the chi-square statistic vanishes. -/
theorem chiSquareStat_eq_zero (oa na ob nb : ℚ) (hna : na ≠ 0) (hnb : nb ≠ 0)
    (hg : na + nb ≠ 0) (h : oa * nb = ob * na) :
    chiSquareStat oa (na - oa) ob (nb - ob) = 0 := by
  have e1 : oa + (na - oa) = na := by ring
  have e2 : ob + (nb - ob) = nb := by ring
  unfold chiSquareStat expectedCell
  rw [e1, e2]
  have d1 : oa - na * (oa + ob) / (na + nb) = 0 := by
    field_simp
    linear_combination h
  have d2 : na - oa - na * (na - oa + (nb - ob)) / (na + nb) = 0 := by
    field_simp
    linear_combination -h
  have d3 : ob - nb * (oa + ob) / (na + nb) = 0 := by
    field_simp
    linear_combination -h
  have d4 : nb - ob - nb * (na - oa + (nb - ob)) / (na + nb) = 0 := by
    field_simp
    linear_combination h
  rw [d1, d2, d3, d4]
  norm_num

/-- C7: the significance test is symmetric in its two variant arguments — the
swapped invocation returns the identical result, so in particular the same
p-value and chi-square statistic, and a winner label naming the same
variant. -/
theorem significance_argument_symmetric (sf : ℚ → ℚ) (va vb : Variant) (m : TestMetric) :
    runSignificanceTest sf va vb m = runSignificanceTest sf vb va m := by
  unfold runSignificanceTest
  rw [testOutcome_swap sf va vb m]
  exact if_congr or_comm rfl rfl

/-- C8: the significance test fails with `InsufficientDataError` exactly when
some variant has a nonpositive sample size or more occurred events than its
sample holds; otherwise the caller receives the computed `TestResult`. -/
theorem significance_insufficient_data (sf : ℚ → ℚ) (va vb : Variant) (m : TestMetric) :
    (runSignificanceTest sf va vb m = Except.error TestError.insufficientData ↔
      va.sampleSize ≤ 0 ∨ vb.sampleSize ≤ 0 ∨
        va.sampleSize < (occurredCount va m : ℤ) ∨ vb.sampleSize < (occurredCount vb m : ℤ)) ∧
    (¬(va.sampleSize ≤ 0 ∨ vb.sampleSize ≤ 0 ∨
        va.sampleSize < (occurredCount va m : ℤ) ∨ vb.sampleSize < (occurredCount vb m : ℤ)) →
      runSignificanceTest sf va vb m = Except.ok (testOutcome sf va vb m)) := by
  constructor
  · unfold runSignificanceTest insufficientVariant
    split_ifs with h
    · exact iff_of_true rfl (by tauto)
    · exact iff_of_false (by simp) (by tauto)
  · intro h
    unfold runSignificanceTest
    rw [if_neg (by unfold insufficientVariant; tauto)]

/-- C1: whenever a returned result is not significant its winner label is
`"inconclusive"`; exactly equal rates give a zero statistic, p-value `1` and
an inconclusive label; and a label other than `"inconclusive"` occurs only
for a significant result naming the variant with the strictly higher rate. -/
theorem significance_winner_policy (sf : ℚ → ℚ) (h0 : sf 0 = 1) (va vb : Variant)
    (m : TestMetric) (r : TestResult)
    (hok : runSignificanceTest sf va vb m = Except.ok r) :
    (r.significant = false → r.winnerLabel = "inconclusive") ∧
    (variantRate va m = variantRate vb m →
      r.chiSquareStatistic = 0 ∧ r.pValue = 1 ∧ r.winnerLabel = "inconclusive") ∧
    (r.winnerLabel ≠ "inconclusive" →
      r.significant = true ∧
        ((variantRate vb m < variantRate va m ∧ r.winnerLabel = va.label) ∨
          (variantRate va m < variantRate vb m ∧ r.winnerLabel = vb.label))) := by
  rw [run_ok_iff] at hok
  obtain ⟨hval, hr⟩ := hok
  have hva := valid_bounds va m fun hx => hval (Or.inl hx)
  have hvb := valid_bounds vb m fun hx => hval (Or.inr hx)
  subst hr
  simp only [testOutcome]
  split_ifs with hdeg
  · exact ⟨fun _ => rfl, fun _ => ⟨rfl, rfl, rfl⟩, fun hw => absurd rfl hw⟩
  · have hna : (va.sampleSize : ℚ) ≠ 0 := ne_of_gt hva.1
    have hnb : (vb.sampleSize : ℚ) ≠ 0 := ne_of_gt hvb.1
    refine ⟨?_, ?_, ?_⟩
    · intro hsig
      simp only [mainOutcome] at hsig ⊢
      rw [hsig]
      simp
    · intro hrate
      have hx : (occurredCount va m : ℚ) * (vb.sampleSize : ℚ) =
          (occurredCount vb m : ℚ) * (va.sampleSize : ℚ) := by
        unfold variantRate at hrate
        exact (div_eq_div_iff hna hnb).mp hrate
      have hstat : chiSquareStat ((occurredCount va m : ℚ))
          ((va.sampleSize : ℚ) - (occurredCount va m : ℚ)) ((occurredCount vb m : ℚ))
          ((vb.sampleSize : ℚ) - (occurredCount vb m : ℚ)) = 0 :=
        chiSquareStat_eq_zero _ _ _ _ hna hnb (ne_of_gt (add_pos hva.1 hvb.1)) hx
      refine ⟨?_, ?_, ?_⟩
      · simp only [mainOutcome]
        exact hstat
      · simp only [mainOutcome]
        rw [hstat, h0]
      · simp only [mainOutcome]
        rw [hstat, h0]
        norm_num
    · intro hw
      by_cases hsig : sf (chiSquareStat ((occurredCount va m : ℚ))
          ((va.sampleSize : ℚ) - (occurredCount va m : ℚ)) ((occurredCount vb m : ℚ))
          ((vb.sampleSize : ℚ) - (occurredCount vb m : ℚ))) < 1 / 20
      · refine ⟨by simp only [mainOutcome]; exact decide_eq_true hsig, ?_⟩
        rcases lt_trichotomy (variantRate vb m) (variantRate va m) with hlt | heq | hlt
        · refine Or.inl ⟨hlt, ?_⟩
          simp only [mainOutcome]
          rw [decide_eq_true hsig]
          simp [hlt]
        · exfalso
          apply hw
          simp only [mainOutcome]
          rw [decide_eq_true hsig]
          simp [heq, lt_irrefl]
        · refine Or.inr ⟨hlt, ?_⟩
          simp only [mainOutcome]
          rw [decide_eq_true hsig]
          simp [hlt, lt_asymm hlt]
      · exfalso
        apply hw
        simp only [mainOutcome]
        rw [decide_eq_false hsig]
        simp

/-- C4: every returned p-value lies in `[0,1]`, significance is exactly the
fixed `pValue < 0.05` threshold, and the confidence is `(1 − pValue) × 100`
clamped to `[0,100]`. -/
theorem significance_pvalue_confidence (sf : ℚ → ℚ)
    (hsf : ∀ x : ℚ, 0 ≤ x → 0 ≤ sf x ∧ sf x ≤ 1) (va vb : Variant) (m : TestMetric)
    (r : TestResult) (hok : runSignificanceTest sf va vb m = Except.ok r) :
    (0 ≤ r.pValue ∧ r.pValue ≤ 1) ∧ (r.significant = true ↔ r.pValue < 1 / 20) ∧
      r.confidencePercent = min 100 (max 0 ((1 - r.pValue) * 100)) := by
  rw [run_ok_iff] at hok
  obtain ⟨hval, hr⟩ := hok
  have hva := valid_bounds va m fun hx => hval (Or.inl hx)
  have hvb := valid_bounds vb m fun hx => hval (Or.inr hx)
  subst hr
  simp only [testOutcome]
  split_ifs with hdeg
  · refine ⟨⟨by norm_num [degOutcome], by norm_num [degOutcome]⟩, ?_, ?_⟩
    · simp only [degOutcome]
      norm_num
    · simp only [degOutcome, clampPercent]
  · have hstat : 0 ≤ chiSquareStat ((occurredCount va m : ℚ))
        ((va.sampleSize : ℚ) - (occurredCount va m : ℚ)) ((occurredCount vb m : ℚ))
        ((vb.sampleSize : ℚ) - (occurredCount vb m : ℚ)) :=
      chiSquareStat_nonneg _ _ _ _ (Nat.cast_nonneg _) (by linarith [hva.2])
        (Nat.cast_nonneg _) (by linarith [hvb.2])
    obtain ⟨hp0, hp1⟩ := hsf _ hstat
    refine ⟨⟨hp0, hp1⟩, ?_, ?_⟩
    · simp [mainOutcome, decide_eq_true_eq]
    · simp [mainOutcome, clampPercent]

/-- The stand-in takes the value `1` at a zero statistic. -/
theorem sfEx_zero : sfEx 0 = 1 := by norm_num [sfEx]

/-- The stand-in maps nonnegative statistics into `[0,1]`. -/
theorem sfEx_bounds : ∀ x : ℚ, 0 ≤ x → 0 ≤ sfEx x ∧ sfEx x ≤ 1 := by
  intro x hx
  unfold sfEx
  constructor
  · exact div_nonneg zero_le_one (by linarith)
  · rw [div_le_one (by linarith)]
    linarith

/-- Witness for C1 at the concrete identical-rates scenario, both variants
opening 300 of 1000. -/
theorem significance_winner_policy_witness :
    (resTie.significant = false → resTie.winnerLabel = "inconclusive") ∧
    (variantRate vA300 TestMetric.mOpen = variantRate vB300 TestMetric.mOpen →
      resTie.chiSquareStatistic = 0 ∧ resTie.pValue = 1 ∧
        resTie.winnerLabel = "inconclusive") ∧
    (resTie.winnerLabel ≠ "inconclusive" →
      resTie.significant = true ∧
        ((variantRate vB300 TestMetric.mOpen < variantRate vA300 TestMetric.mOpen ∧
            resTie.winnerLabel = vA300.label) ∨
          (variantRate vA300 TestMetric.mOpen < variantRate vB300 TestMetric.mOpen ∧
            resTie.winnerLabel = vB300.label))) :=
  significance_winner_policy sfEx sfEx_zero vA300 vB300 TestMetric.mOpen resTie (by
    norm_num [runSignificanceTest, testOutcome, mainOutcome, degOutcome, insufficientVariant,
      occurredCount, vA300, vB300, countsOf, degenerateTable, expectedCell, chiSquareStat,
      variantRate, recommendedMinimum, sampleFloor, clampPercent, sfEx, resTie])

/-- Witness for C4 at the concrete small-sample scenario, 12 of 50 against
14 of 50. -/
theorem significance_pvalue_confidence_witness :
    (0 ≤ resSmall.pValue ∧ resSmall.pValue ≤ 1) ∧
    (resSmall.significant = true ↔ resSmall.pValue < 1 / 20) ∧
      resSmall.confidencePercent = min 100 (max 0 ((1 - resSmall.pValue) * 100)) :=
  significance_pvalue_confidence sfEx sfEx_bounds vA12 vB14 TestMetric.mOpen resSmall (by
    norm_num [runSignificanceTest, testOutcome, mainOutcome, degOutcome, insufficientVariant,
      occurredCount, vA12, vB14, countsOf, degenerateTable, expectedCell, chiSquareStat,
      variantRate, recommendedMinimum, sampleFloor, clampPercent, sfEx, resSmall])

end SpecModel

/-- Folding the open rates of a campaign list equals summing the mapped
rates. -/
theorem foldl_openRate (l : List CampaignRec) (a : ℚ) :
    l.foldl (fun sum c => sum + c.openRate) a = a + (l.map (·.openRate)).sum := by
  induction l generalizing a with
  | nil => simp
  | cons c t ih =>
    simp only [List.foldl_cons, List.map_cons, List.sum_cons, ih]
    ring

/-- Summing a list mapped to a constant multiple pulls the constant out. -/
theorem sum_map_openRate_mul (l : List CampaignRec) (k : ℚ) :
    (l.map fun c => c.openRate * k).sum = (l.map (·.openRate)).sum * k := by
  induction l with
  | nil => simp
  | cons c t ih =>
    simp only [List.map_cons, List.sum_cons, ih]
    ring

/-- Summing a constant over a campaign list counts its length. -/
theorem sum_map_const_recipients (l : List CampaignRec) (k : ℚ) :
    (l.map fun _ => k).sum = (l.length : ℚ) * k := by
  induction l with
  | nil => simp
  | cons c t ih =>
    simp only [List.map_cons, List.sum_cons, List.length_cons, ih]
    push_cast
    ring

/-- C2 counterexample: the source aggregates by averaging the stored
per-record rates, not by summing counts and deriving one rate — on a 1000
recipient campaign at 10% and a 10-recipient campaign at 50% the code reports
30% while the sum-then-derive rate is 105/1010; the mean aggregation is also
not associative (folding an aggregate of two zero-rate campaigns with a third
at 30% gives 15%, aggregating all three gives 10%); and
`processAnalyticsData` likewise averages the rate cells. -/
theorem aggregation_mean_cex :
    keyMetricsAvgOpenRate [cexCampA, cexCampB] = 3 / 10 ∧
    sumThenDeriveOpenRate [cexCampA, cexCampB] = 21 / 202 ∧
    keyMetricsAvgOpenRate [cexCampA, cexCampB] ≠ sumThenDeriveOpenRate [cexCampA, cexCampB] ∧
    keyMetricsAvgOpenRate
        [{ openRate := keyMetricsAvgOpenRate [cexCampZ, cexCampZ], ctr := 0,
           conversionRate := 0, recipients := 2000 }, cexCampC] ≠
      keyMetricsAvgOpenRate [cexCampZ, cexCampZ, cexCampC] ∧
    (processAnalyticsMetrics [cexRow1, cexRow2] none).avgOpenRate = 30 ∧
    jsRound ((10 * 1000 + 50 * 10 : ℚ) / 1010) = 10 := by
  refine ⟨?_, ?_, ?_, ?_, ?_, ?_⟩ <;>
    norm_num [keyMetricsAvgOpenRate, sumThenDeriveOpenRate, processAnalyticsMetrics, jsRound,
      cexCampA, cexCampB, cexCampZ, cexCampC, cexRow1, cexRow2, List.filter]

/-- C2 amended: the source aggregates by the plain mean of the stored
per-record rates, which agrees with the specification's sum-then-derive rule
exactly on records of equal population. -/
theorem aggregation_equal_populations (cs : List CampaignRec) (k : ℚ) (hne : cs ≠ [])
    (hk : 0 < k) (hall : ∀ c ∈ cs, c.recipients = k) :
    keyMetricsAvgOpenRate cs = sumThenDeriveOpenRate cs := by
  unfold keyMetricsAvgOpenRate sumThenDeriveOpenRate
  rw [foldl_openRate, zero_add]
  have h1 : (cs.map fun c => c.openRate * c.recipients) = cs.map fun c => c.openRate * k :=
    List.map_congr_left fun c hc => by rw [hall c hc]
  have h2 : (cs.map fun c => c.recipients) = cs.map fun _ => k :=
    List.map_congr_left fun c hc => hall c hc
  rw [h1, h2, sum_map_openRate_mul, sum_map_const_recipients,
    mul_comm (cs.length : ℚ) k, mul_comm ((cs.map (·.openRate)).sum) k,
    mul_div_mul_left _ _ (ne_of_gt hk)]

/-- Witness for the amended C2 at two records of the common population 100. -/
theorem aggregation_equal_populations_witness :
    keyMetricsAvgOpenRate [wCampX, wCampY] = sumThenDeriveOpenRate [wCampX, wCampY] :=
  aggregation_equal_populations [wCampX, wCampY] 100 (by simp) (by norm_num)
    (by
      intro c hc
      simp only [List.mem_cons, List.not_mem_nil, or_false] at hc
      rcases hc with rfl | rfl <;> rfl)

/-- C3 counterexample: on an all-zero baseline and an optimized open rate of
`0.05` the improvement calculator returns the empty mapping — no entry with a
null relative change and no absolute change either. -/
theorem improvement_zero_baseline_cex :
    calculateImprovement zeroBaseline smallOptimized = [] ∧
    (calculateImprovement zeroBaseline smallOptimized).lookup "openRate" = none := by
  have h : calculateImprovement zeroBaseline smallOptimized = [] := by
    norm_num [calculateImprovement, improvementMetrics, zeroBaseline, smallOptimized]
  exact ⟨h, by rw [h]; rfl⟩

/-- C3 amended: for the three metrics the calculator iterates over, a strictly
positive parsed baseline yields an entry holding the relative change
`(optimized − baseline) / baseline × 100` and the absolute change
`optimized − baseline` (both as `toFixed(2)` strings), while a baseline that
parses as zero or negative omits the metric from the mapping entirely. -/
theorem improvement_entry_values (b o : String → Option ℚ) (m : String)
    (hm : m ∈ improvementMetrics) :
    (0 < (b m).getD 0 →
      (calculateImprovement b o).lookup m = some
        { baseline := (b m).getD 0, optimized := (o m).getD 0,
          improvement := formatFixed 2 (((o m).getD 0 - (b m).getD 0) / (b m).getD 0 * 100),
          absolute := formatFixed 2 ((o m).getD 0 - (b m).getD 0) }) ∧
    ((b m).getD 0 ≤ 0 → (calculateImprovement b o).lookup m = none) := by
  have hoc : ("openRate" : String) ≠ "clickRate" := by decide
  have hod : ("openRate" : String) ≠ "deliveryRate" := by decide
  have hcd : ("clickRate" : String) ≠ "deliveryRate" := by decide
  simp only [improvementMetrics, List.mem_cons, List.not_mem_nil, or_false] at hm
  rcases hm with rfl | rfl | rfl <;>
    constructor <;>
      intro hb <;>
        by_cases h1 : 0 < (b "openRate").getD 0 <;>
          by_cases h2 : 0 < (b "clickRate").getD 0 <;>
            by_cases h3 : 0 < (b "deliveryRate").getD 0 <;>
              simp_all [calculateImprovement, improvementMetrics, List.lookup, hoc, hod, hcd,
                hoc.symm, hod.symm, hcd.symm, not_lt_of_le, lt_irrefl]

/-- Witness for the amended C3 at the baseline open rate `0.25` and optimized
open rate `0.3`. -/
theorem improvement_entry_values_witness :
    (0 < (wBaseline "openRate").getD 0 →
      (calculateImprovement wBaseline wOptimized).lookup "openRate" = some
        { baseline := (wBaseline "openRate").getD 0,
          optimized := (wOptimized "openRate").getD 0,
          improvement := formatFixed 2
            (((wOptimized "openRate").getD 0 - (wBaseline "openRate").getD 0) /
              (wBaseline "openRate").getD 0 * 100),
          absolute := formatFixed 2
            ((wOptimized "openRate").getD 0 - (wBaseline "openRate").getD 0) }) ∧
    ((wBaseline "openRate").getD 0 ≤ 0 →
      (calculateImprovement wBaseline wOptimized).lookup "openRate" = none) :=
  improvement_entry_values wBaseline wOptimized "openRate" (by simp [improvementMetrics])

/-- C10: the improvement calculator considers exactly the metrics `openRate`,
`clickRate` and `deliveryRate` whose parsed baseline is strictly positive —
never a conversion or revenue metric — and an all-nonpositive baseline yields
the empty mapping. -/
theorem improvement_metric_selection (b o : String → Option ℚ) :
    ((calculateImprovement b o).map Prod.fst =
      improvementMetrics.filter fun m => decide (0 < (b m).getD 0)) ∧
    (∀ p ∈ calculateImprovement b o, p.1 ≠ "conversionRate" ∧ p.1 ≠ "revenuePerEmail") ∧
    ((∀ m ∈ improvementMetrics, (b m).getD 0 ≤ 0) → calculateImprovement b o = []) := by
  by_cases h1 : 0 < (b "openRate").getD 0 <;>
    by_cases h2 : 0 < (b "clickRate").getD 0 <;>
      by_cases h3 : 0 < (b "deliveryRate").getD 0 <;>
        refine ⟨?_, ?_, ?_⟩ <;>
          simp_all [calculateImprovement, improvementMetrics, List.filter, not_lt_of_le]

/-- C5 counterexample: with zero deliveries `formatCampaignData` still echoes
the upstream open rate (as the string `"50.00"`, not a flagged zero), the
detailed report's delivery rate on a zero-send campaign surfaces the string
`"NaN"`, and a stats payload with positive deliveries over zero sends
surfaces `"Infinity"`. -/
theorem kpi_zero_guard_cex :
    (formatCampaignData cexZeroDelivered).openRate = "50.00" ∧
    (getDetailedCampaignReport cexZeroSent).deliveryRate = "NaN" ∧
    (formatCampaignData cexInfStats).deliveryRate = "Infinity" := by
  refine ⟨?_, ?_, ?_⟩
  · norm_num [formatCampaignData, cexZeroDelivered, formatFixed, fixedScaled, padDigits]
    decide
  · norm_num [getDetailedCampaignReport, cexZeroSent, JSNum.div, JSNum.mul, JSNum.toFixed]
  · norm_num [formatCampaignData, cexInfStats, JSNum.div, JSNum.mul, JSNum.ofOption,
      JSNum.toFixed]

/-- C5 amended: `formatCampaignData` returns the string `"0"` for the delivery
rate when `delivered` is missing or zero (its only zero-guard, and there is no
flagged undefined condition), while `getDetailedCampaignReport` divides by
`emails_sent` unguarded, so a campaign with zero sends and zero bounces
surfaces the string `"NaN"` to the caller. -/
theorem kpi_guard_behavior :
    (∀ raw : RawCampaignData, raw.stats.bind (fun s => s.delivered) = none →
      (formatCampaignData raw).deliveryRate = "0") ∧
    (∀ raw : RawCampaignData, raw.stats.bind (fun s => s.delivered) = some 0 →
      (formatCampaignData raw).deliveryRate = "0") ∧
    (∀ d : DetailedReportData, d.emailsSent = 0 → d.hardBounces = 0 → d.softBounces = 0 →
      (getDetailedCampaignReport d).deliveryRate = "NaN") := by
  refine ⟨?_, ?_, ?_⟩
  · intro raw h
    simp [formatCampaignData, h]
  · intro raw h
    simp [formatCampaignData, h]
  · intro d h1 h2 h3
    simp [getDetailedCampaignReport, h1, h2, h3, JSNum.div, JSNum.mul, JSNum.toFixed]

/-- C6 counterexample: on a stored open-rate fraction of `0.25` the formatter
returns the string `"25.00"` — a pre-formatted percentage multiplied by 100,
not a raw numeric fraction in `[0,1]`. -/
theorem kpi_format_cex :
    (formatCampaignData cexQuarterRate).openRate = "25.00" ∧
    (100 : ℚ) * (1 / 4) = 25 ∧ ¬((25 : ℚ) ≤ 1) := by
  refine ⟨?_, by norm_num, by norm_num⟩
  norm_num [formatCampaignData, cexQuarterRate, formatFixed, fixedScaled, padDigits]
  decide

/-- C6 amended: the rate fields of `formatCampaignData` are `toFixed(2)`
strings of the stored fraction multiplied by 100; percentage formatting
happens inside the function, not at the caller. -/
theorem kpi_rates_preformatted (raw : RawCampaignData) (q : ℚ)
    (hq : raw.stats.bind (fun s => s.openRate) = some q) :
    (formatCampaignData raw).openRate = formatFixed 2 (q * 100) ∧
    (formatCampaignData raw).clickRate =
      formatFixed 2 ((raw.stats.bind (fun s => s.clickRate)).getD 0 * 100) := by
  constructor
  · simp [formatCampaignData, hq]
  · simp [formatCampaignData]

/-- Witness for the amended C6 at the stored open-rate fraction `0.25`. -/
theorem kpi_rates_preformatted_witness :
    (formatCampaignData cexQuarterRate).openRate = formatFixed 2 ((1 / 4) * 100) ∧
    (formatCampaignData cexQuarterRate).clickRate =
      formatFixed 2 ((cexQuarterRate.stats.bind (fun s => s.clickRate)).getD 0 * 100) :=
  kpi_rates_preformatted cexQuarterRate (1 / 4) (by simp [cexQuarterRate])

/-- C9: every engine computation is deterministic — its output depends only on
its explicit arguments, never on the page environment (the mutable globals and
the `Math.random` stream), so two invocations on identical inputs agree under
any two environments. -/
theorem engine_deterministic (e1 e2 : PageEnv) :
    (∀ raw, formatCampaignDataIn e1 raw = formatCampaignDataIn e2 raw) ∧
    (∀ rows cid, processAnalyticsMetricsIn e1 rows cid = processAnalyticsMetricsIn e2 rows cid) ∧
    (∀ cs, keyMetricsAvgOpenRateIn e1 cs = keyMetricsAvgOpenRateIn e2 cs) ∧
    (∀ va vb, pickWinnerIn e1 va vb = pickWinnerIn e2 va vb) ∧
    (∀ sf va vb m, runSignificanceTestIn e1 sf va vb m = runSignificanceTestIn e2 sf va vb m) ∧
    (∀ b o, calculateImprovementIn e1 b o = calculateImprovementIn e2 b o) :=
  ⟨fun _ => rfl, fun _ _ => rfl, fun _ => rfl, fun _ _ => rfl, fun _ _ _ _ => rfl,
    fun _ _ => rfl⟩

end EmailCampaign
